import Mathlib

/-!
Verification development for the map-export renderer (`export/mapnik/render.py`).

The Python source is shallowly embedded below.  Numeric values are modelled as
rationals (the Python code computes with floats; every quantity the claims
touch is far from any rounding boundary, and the constants `2.54`, `25.4`,
`72`, `256` are embedded exactly).  External collaborators — the mapnik
projection/view transforms (`ProjTransform.forward`, `Map.view_transform`),
the `GlobalMercator.TileLatLonBounds` function from `globalmaptiles`, the
tile downloader, and cairo's PNG decoding — are fields of the `Renderer`
record, exactly the role they play in the source, where they are opaque
library objects reached through `self.renderer`.

Fallible Python code (list `pop` on an empty list, `int()` on a non-numeric
string, calling a constructor with too few arguments, float division by
zero) is embedded with explicit error values of type `PyErr`.
-/

/-- A 2-D point, used for lat/lng pairs, mercator coordinates, view
coordinates and device coordinates alike (the Python code passes bare pairs
or `mapnik2.Coord` values). -/
abbrev Pt : Type := ℚ × ℚ

/-- The Python exceptions the embedded code can raise. -/
inductive PyErr : Type
  | indexError
  | valueError
  | typeError
  | zeroDivisionError
deriving DecidableEq, Repr

/-- Python `int()` applied to a number truncates toward zero. -/
def pyInt (q : ℚ) : ℤ :=
  if 0 ≤ q then ⌊q⌋ else -(⌊-q⌋)

/-- Python `list.pop()` removes and returns the LAST element; on an empty
list it raises `IndexError`. -/
def pyPop {α : Type} (l : List α) : Except PyErr (α × List α) :=
  match l.getLast? with
  | none => Except.error PyErr.indexError
  | some x => Except.ok (x, l.dropLast)

/-- Python `str.split(sep)` for a one-character separator, over the
string's character list (`String.splitOn` itself does not reduce in the
kernel; this structural version has the same semantics: `split` never
returns an empty list, and empty fields are kept). -/
def splitOnChar (sep : Char) : List Char → List (List Char)
  | [] => [[]]
  | c :: rest =>
      let r := splitOnChar sep rest
      if c = sep then [] :: r else (c :: r.headD []) :: r.tail

/-- Python `str.strip()` as `int()` applies it: drop surrounding
whitespace. -/
def trimChars (cs : List Char) : List Char :=
  ((cs.dropWhile Char.isWhitespace).reverse.dropWhile Char.isWhitespace).reverse

/-- A nonempty run of decimal digits, as a number; otherwise `ValueError`. -/
def digitsVal (cs : List Char) : Except PyErr ℤ :=
  if cs ≠ [] ∧ cs.all Char.isDigit then
    Except.ok ((cs.foldl (fun n c => n * 10 + (c.toNat - 48)) 0 : ℕ) : ℤ)
  else Except.error PyErr.valueError

/-- Python 2 `int(<string>)`: optional surrounding whitespace, an optional
sign, then a nonempty run of decimal digits; anything else raises
`ValueError`. -/
def pyIntOfString (cs : List Char) : Except PyErr ℤ :=
  match trimChars cs with
  | '-' :: rest => (digitsVal rest).map (fun n => -n)
  | '+' :: rest => digitsVal rest
  | other => digitsVal other

/-!  ## StyleParser (`render.py` lines 38–94)

`StyleParser` loads one record of `styles.json`; the record itself is the
data, so it is embedded as a structure whose fields are the style keys the
program reads.  Keys that may be absent are `Option`s (`style.get` returns
`None` for a missing key). -/

/-- One style record of `styles.json` as read by `StyleParser`.  The
`map_tiles` field keeps only the `indexing` entry of the tile-overlay block
(its `url` and `http_headers` entries are consumed by the external tile
downloader and never influence the geometry embedded here). -/
structure Style where
  unit : Option String
  zoom : ℚ
  paper_size : List ℚ
  map_size : List ℚ
  margin : List ℚ
  area_border_color : List ℚ
  area_border_width : ℚ
  orientation : Option String
  copyright_margin : Option (List ℚ)
  qrcode_margin : Option (List ℚ)
  qrcode : Option Bool
  map_tiles : Option String
  format : Option String

/-- `self.get(self.UNIT, self.DEFAULT_UNIT)`: the unit tag, defaulting to
`"px"`. -/
def Style.getUnit (s : Style) : String :=
  s.unit.getD "px"

/-- `StyleParser._cm_to_px`: `int(v * 72 / 2.54)`. -/
def cmToPx (v : ℚ) : ℤ :=
  pyInt (v * 72 / (254 / 100))

/-- `StyleParser._mm_to_px`: `int(v * 72 / 25.4)`. -/
def mmToPx (v : ℚ) : ℤ :=
  pyInt (v * 72 / (254 / 10))

/-- `StyleParser._inch_to_px`: `int(v * 72)`. -/
def inchToPx (v : ℚ) : ℤ :=
  pyInt (v * 72)

/-- `StyleParser.to_px`: dispatch on the unit tag.  A `px` value is returned
unchanged; `cm`, `mm` and `in` values are converted (and truncated to an
integer by the helpers above).  For any other unit tag the Python function
falls off the `elif` chain and returns `None`. -/
def Style.to_px (s : Style) (v : ℚ) : Option ℚ :=
  if s.getUnit = "px" then some v
  else if s.getUnit = "cm" then some ((cmToPx v : ℤ) : ℚ)
  else if s.getUnit = "mm" then some ((mmToPx v : ℤ) : ℚ)
  else if s.getUnit = "in" then some ((inchToPx v : ℤ) : ℚ)
  else none

/-- `StyleParser.get_px` applied to a list value: convert every element. -/
def getPxList (s : Style) (vs : List ℚ) : List (Option ℚ) :=
  vs.map s.to_px

/-!  ## `MapnikRenderer._get_sizes` (`render.py` lines 434–440) -/

/-- The projected (mercator) bounding box as far as `_get_sizes` consumes
it: `self.merc_bbox.width()` and `self.merc_bbox.height()`.  The projection
itself is performed by the external `mapnik2.ProjTransform`. -/
structure MercBox where
  width : ℚ
  height : ℚ

/-- `MapnikRenderer._get_sizes`: fetch `paper_size` and `map_size` through
`get_px`; when the style's `orientation` is `'auto'` and the projected
bounding box is taller than wide, reverse both two-element lists in place
(Python `list.reverse()`). -/
def getSizes (s : Style) (mb : MercBox) : List (Option ℚ) × List (Option ℚ) :=
  let paper_size := getPxList s s.paper_size
  let map_size := getPxList s s.map_size
  if s.orientation = some "auto" ∧ mb.width / mb.height < 1 then
    (paper_size.reverse, map_size.reverse)
  else
    (paper_size, map_size)

/-!  ## Tile-address parsing (`TileLayer.__init__`, lines 247–258) -/

/-- The underscore-separated components of the extension-stripped basename
of a tile cache filename: `os.path.basename(filename)` (the part after the
last `/`), then `.split('.')[0]`, then `.split('_')`. -/
def tileNameParts (filename : String) : List (List Char) :=
  let basename := (splitOnChar '/' filename.data).getLastD []
  let stem := (splitOnChar '.' basename).headD []
  splitOnChar '_' stem

/-- `TileLayer.__init__`, the filename-to-address step: the address starts
as `(0,0,0)`; when the basename splits into exactly three components each
is parsed with `int(...)` (which raises `ValueError` on a non-numeric
component). -/
def tileAddrOfFilename (filename : String) : Except PyErr (ℤ × ℤ × ℤ) :=
  match tileNameParts filename with
  | [a, b, c] => do
      let tx ← pyIntOfString a
      let ty ← pyIntOfString b
      let tz ← pyIntOfString c
      Except.ok (tx, ty, tz)
  | _ => Except.ok (0, 0, 0)

/-- Decidable equality for `Except` results, so concrete parses can be
checked by `decide`. -/
instance {e a : Type} [DecidableEq e] [DecidableEq a] : DecidableEq (Except e a) := fun x y =>
  match x, y with
  | Except.error u, Except.error v =>
      if h : u = v then Decidable.isTrue (by rw [h]) else Decidable.isFalse (by simp [h])
  | Except.error _, Except.ok _ => Decidable.isFalse (by simp)
  | Except.ok _, Except.error _ => Decidable.isFalse (by simp)
  | Except.ok u, Except.ok v =>
      if h : u = v then Decidable.isTrue (by rw [h]) else Decidable.isFalse (by simp [h])

/-!  ## The cairo drawing surface

The program only ever applies `scale` and `translate` to the cairo context,
so its current transformation matrix stays diagonal-affine; the model keeps
exactly that shape.  `save`/`restore` push and pop the matrix (cairo also
saves the source and line width; no claim depends on those, so the stack
holds the matrix alone).  Path points are converted to device space when the
path is built, and `set_source_surface` fixes the source placement against
the matrix current at that call — both as cairo does. -/

/-- A diagonal-affine transformation matrix: `apply (x, y) = (sx*x + dx, sy*y + dy)`. -/
structure AffineMat where
  sx : ℚ
  sy : ℚ
  dx : ℚ
  dy : ℚ
deriving DecidableEq, Repr

def AffineMat.apply (m : AffineMat) (p : Pt) : Pt :=
  (m.sx * p.1 + m.dx, m.sy * p.2 + m.dy)

/-- `ctx.scale(f.1, f.2)`. -/
def AffineMat.scaleBy (m : AffineMat) (f : Pt) : AffineMat :=
  ⟨m.sx * f.1, m.sy * f.2, m.dx, m.dy⟩

/-- `ctx.translate(d.1, d.2)`. -/
def AffineMat.translateBy (m : AffineMat) (d : Pt) : AffineMat :=
  ⟨m.sx, m.sy, m.dx + m.sx * d.1, m.dy + m.sy * d.2⟩

/-- The cairo context calls the program makes, in the order it makes them. -/
inductive CanvasOp : Type
  | save
  | restore
  | scale (f : Pt)
  | translate (d : Pt)
  | moveTo (p : Pt)
  | lineTo (p : Pt)
  | closePath
  | setSourceRGBA (r g b a : ℚ)
  | setLineWidth (w : ℚ)
  | stroke
  | selectFontFace (name : String)
  | setFontSize (size : ℚ)
  | showText (t : String)
  | setSourceSurface (file : String) (p : Pt)
  | paint
  | mapnikRender
deriving DecidableEq, Repr

/-- The source pattern currently installed on the context. -/
inductive PaintSource : Type
  | rgba (r g b a : ℚ)
  | surface (file : String) (origin : Pt) (scl : Pt)
deriving DecidableEq, Repr

/-- Device-space drawing commands: what actually reaches the page. -/
inductive DevCmd : Type
  | moveTo (p : Pt)
  | lineTo (p : Pt)
  | closePath
  | strokeCmd (src : Option PaintSource) (lineWidth : ℚ)
  | image (file : String) (origin : Pt) (scl : Pt)
  | flood (r g b a : ℚ)
  | text (t : String)
  | base
deriving DecidableEq, Repr

/-- The modelled cairo context state. -/
structure CairoState where
  ctm : AffineMat
  stack : List AffineMat
  source : Option PaintSource
  lineWidth : ℚ
  dev : List DevCmd
deriving DecidableEq, Repr

/-- One cairo call against the context state. -/
def stepOp (st : CairoState) (op : CanvasOp) : CairoState :=
  match op with
  | CanvasOp.save => { st with stack := st.ctm :: st.stack }
  | CanvasOp.restore =>
      match st.stack with
      | [] => st
      | m :: rest => { st with ctm := m, stack := rest }
  | CanvasOp.scale f => { st with ctm := st.ctm.scaleBy f }
  | CanvasOp.translate d => { st with ctm := st.ctm.translateBy d }
  | CanvasOp.moveTo p => { st with dev := st.dev ++ [DevCmd.moveTo (st.ctm.apply p)] }
  | CanvasOp.lineTo p => { st with dev := st.dev ++ [DevCmd.lineTo (st.ctm.apply p)] }
  | CanvasOp.closePath => { st with dev := st.dev ++ [DevCmd.closePath] }
  | CanvasOp.setSourceRGBA r g b a => { st with source := some (PaintSource.rgba r g b a) }
  | CanvasOp.setLineWidth w => { st with lineWidth := w }
  | CanvasOp.stroke => { st with dev := st.dev ++ [DevCmd.strokeCmd st.source st.lineWidth] }
  | CanvasOp.selectFontFace _ => st
  | CanvasOp.setFontSize _ => st
  | CanvasOp.showText t => { st with dev := st.dev ++ [DevCmd.text t] }
  | CanvasOp.setSourceSurface file p =>
      { st with source := some (PaintSource.surface file (st.ctm.apply p) (st.ctm.sx, st.ctm.sy)) }
  | CanvasOp.paint =>
      match st.source with
      | some (PaintSource.surface file origin scl) =>
          { st with dev := st.dev ++ [DevCmd.image file origin scl] }
      | some (PaintSource.rgba r g b a) => { st with dev := st.dev ++ [DevCmd.flood r g b a] }
      | none => st
  | CanvasOp.mapnikRender => { st with dev := st.dev ++ [DevCmd.base] }

def runOps (st : CairoState) (ops : List CanvasOp) : CairoState :=
  ops.foldl stepOp st

/-- The context as the layers receive it: `MapnikRenderer.render` translates
the fresh surface by the page margin before any layer draws. -/
def initCtx (margin : Pt) : CairoState :=
  ⟨⟨1, 1, margin.1, margin.2⟩, [], none, 2, []⟩

/-- The result of running a piece of effectful Python: the cairo calls it
performed, and the exception (if any) that terminated it.  Calls made before
the exception have already hit the context. -/
structure PyResult : Type where
  ops : List CanvasOp
  err : Option PyErr
deriving DecidableEq, Repr

/-- Sequencing: once an exception is raised, nothing later runs. -/
def PyResult.andThen (a b : PyResult) : PyResult :=
  match a.err with
  | some _ => a
  | none => ⟨a.ops ++ b.ops, b.err⟩

/-!  ## The renderer context shared by the layers

`MapnikRenderer` (lines 287–443).  Fields ending in `Forward` and
`tileLatLonBounds` are the external mapnik / globalmaptiles collaborators;
`pngDims` is cairo's PNG decoding (`ImageSurface.create_from_png` followed
by `get_width`/`get_height`); `mapSize` is `self.map_size` as computed by
`_get_sizes` (its pixel pair, used by the copyright and QR layers). -/

/-- `GlobalMercator.TileLatLonBounds(tx, ty, tz)` returns
`(min_lat, min_lon, max_lat, max_lon)`. -/
structure LatLonBounds where
  minLat : ℚ
  minLon : ℚ
  maxLat : ℚ
  maxLon : ℚ

structure Renderer where
  style : Style
  projForward : Pt → Pt
  viewForward : Pt → Pt
  tileLatLonBounds : ℤ → ℤ → ℤ → LatLonBounds
  mapSize : Pt
  pngDims : String → ℤ × ℤ

/-- `self.zoom = self.style.get('zoom')`; `get_zoom` returns it. -/
def Renderer.zoom (r : Renderer) : ℚ :=
  r.style.zoom

/-- `Layer._google_to_mapnik_coord`: input points come as `[lat, lng]`,
mapnik wants `(lng, lat)`. -/
def googleToMapnikCoord (latlng : Pt) : Pt :=
  (latlng.2, latlng.1)

/-- `Layer._convert_point`: axis swap, then the projection transform, then
the map's view transform. -/
def Renderer.convertPoint (r : Renderer) (latlng : Pt) : Pt :=
  r.viewForward (r.projForward (googleToMapnikCoord latlng))

/-!  ## The layers (`render.py` lines 97–285) -/

/-- One input area: `area['path']`, an ordered list of `[lat, lng]` pairs. -/
abbrev Area : Type := List Pt

/-- The `while len(coords): coord = coords.pop(); self.ctx.line_to(...)`
loop of `AreaLayer._draw_area`: pop from the END until the list is empty,
emitting a `line_to` for each popped point. -/
def lineToLoop (coords : List Pt) : List CanvasOp :=
  match h : coords.getLast? with
  | none => []
  | some c => CanvasOp.lineTo c :: lineToLoop coords.dropLast
termination_by coords.length
decreasing_by
  cases coords with
  | nil => simp at h
  | cons a l => simp [List.length_dropLast]

/-- `AreaLayer._draw_area` (lines 155–169): convert every path point, then
`start = coords.pop()` (NOTE: `pop()` takes the LAST element, and raises
`IndexError` on an empty list — the preceding `if len(coords) < 2: pass`
guard has an empty body and prevents nothing), `move_to` the start, the
`line_to` loop, and `close_path`. -/
def drawArea (r : Renderer) (area : Area) : PyResult :=
  let coords := area.map r.convertPoint
  match pyPop coords with
  | Except.error e => ⟨[], some e⟩
  | Except.ok (start, rest) =>
      ⟨CanvasOp.moveTo start :: (lineToLoop rest ++ [CanvasOp.closePath]), none⟩

/-- A list index with Python semantics for the styled colour list:
`style.get('area_border_color')[i]`.  The styles the program ships always
carry four components; a shorter list would raise in Python, a case no
claim exercises, so the lookup totalises with 0. -/
def colorAt (s : Style) (i : ℕ) : ℚ :=
  (s.area_border_color.getD i 0)

/-- `AreaLayer.draw` (lines 133–153): save, scale by the style zoom, draw
every area, set the brush colour and line width, stroke, restore.  An
exception in `_draw_area` propagates: the calls after it (including the
`restore`) do not run. -/
def areasFold (r : Renderer) (areas : List Area) : PyResult :=
  areas.foldl (fun acc a => acc.andThen (drawArea r a)) ⟨[], none⟩

/-- The brush set-up, stroke and final `restore` that close
`AreaLayer.draw`. -/
def areaTail (r : Renderer) : PyResult :=
  ⟨[CanvasOp.setSourceRGBA (colorAt r.style 0) (colorAt r.style 1)
      (colorAt r.style 2) (colorAt r.style 3),
    CanvasOp.setLineWidth r.style.area_border_width,
    CanvasOp.stroke, CanvasOp.restore], none⟩

def areaLayerDraw (r : Renderer) (areas : List Area) : PyResult :=
  let z := r.zoom
  PyResult.andThen ⟨[CanvasOp.save, CanvasOp.scale (z, z)], none⟩
    (PyResult.andThen (areasFold r areas) (areaTail r))

/-- `MapnikLayer.draw` (lines 122–125): hand the context to the external
base-map renderer, `mapnik2.render(self.m, self.ctx)`.  No save, no
restore, no transform of its own. -/
def mapnikLayerDraw : PyResult :=
  ⟨[CanvasOp.mapnikRender], none⟩

/-- `CopyrightLayer.draw` (lines 177–190): save, `scale(1, 1)`, select the
font, fetch the margin through `get_px` (default `[3, 3]`, converted like
any style value), `move_to(margin[0], map_size[1] - margin[1])`, show the
text, restore.  A margin list shorter than two elements would raise
`IndexError` at the subscript; a `None` from `to_px` (unknown unit tag)
would raise `TypeError` at the subtraction. -/
def copyrightLayerDraw (r : Renderer) (text : String) : PyResult :=
  let pre := [CanvasOp.save, CanvasOp.scale (1, 1),
              CanvasOp.selectFontFace "Sans", CanvasOp.setFontSize 6]
  let marginList := getPxList r.style (r.style.copyright_margin.getD [3, 3])
  match marginList[0]?, marginList[1]? with
  | some (some m0), some (some m1) =>
      ⟨pre ++ [CanvasOp.moveTo (m0, r.mapSize.2 - m1),
               CanvasOp.showText text, CanvasOp.restore], none⟩
  | some none, _ => ⟨pre, some PyErr.typeError⟩
  | _, some none => ⟨pre, some PyErr.typeError⟩
  | _, _ => ⟨pre, some PyErr.indexError⟩

/-- `QRCodeLayer.draw` (lines 197–208): save, scale by the fixed factor
`0.3`, decode the PNG (external), fetch the `qrcode_margin` (default
`[0, 0]`), place the source at
`(int(1/zoom * map_size[0]) - width - margin[0], ...)`, paint, restore. -/
def qrCodeLayerDraw (r : Renderer) (qrcodeFile : String) : PyResult :=
  let z : ℚ := 3 / 10
  let pre := [CanvasOp.save, CanvasOp.scale (z, z)]
  let dims := r.pngDims qrcodeFile
  let marginList := getPxList r.style (r.style.qrcode_margin.getD [0, 0])
  match marginList[0]?, marginList[1]? with
  | some (some m0), some (some m1) =>
      let x : ℚ := ((pyInt ((1 / z) * r.mapSize.1) : ℤ) : ℚ) - ((dims.1 : ℤ) : ℚ) - m0
      let y : ℚ := ((pyInt ((1 / z) * r.mapSize.2) : ℤ) : ℚ) - ((dims.2 : ℤ) : ℚ) - m1
      ⟨pre ++ [CanvasOp.setSourceSurface qrcodeFile (x, y), CanvasOp.paint,
               CanvasOp.restore], none⟩
  | some none, _ => ⟨pre, some PyErr.typeError⟩
  | _, some none => ⟨pre, some PyErr.typeError⟩
  | _, _ => ⟨pre, some PyErr.indexError⟩

/-!  ### TileLayer (lines 244–284) -/

/-- A constructed `TileLayer`: the cached filename plus the address parsed
from it by `TileLayer.__init__`. -/
structure TileInst where
  filename : String
  tx : ℤ
  ty : ℤ
  tz : ℤ
deriving DecidableEq, Repr

/-- The tile's converted northwest corner,
`self._convert_point([max_lat, min_lon])`. -/
def tileNW (r : Renderer) (t : TileInst) : Pt :=
  let b := r.tileLatLonBounds t.tx t.ty t.tz
  r.convertPoint (b.maxLat, b.minLon)

/-- The tile's converted southeast corner,
`self._convert_point([min_lat, max_lon])`. -/
def tileSE (r : Renderer) (t : TileInst) : Pt :=
  let b := r.tileLatLonBounds t.tx t.ty t.tz
  r.convertPoint (b.minLat, b.maxLon)

/-- `tile_width = coord_se.x - coord_nw.x`: the tile footprint's width in
view coordinates. -/
def tileWidth (r : Renderer) (t : TileInst) : ℚ :=
  (tileSE r t).1 - (tileNW r t).1

/-- The local `zoom = tile_width / 256` of `TileLayer.draw`. -/
def tileZoom (r : Renderer) (t : TileInst) : ℚ :=
  tileWidth r t / 256

/-- `TileLayer.draw` (lines 260–284): compute the tile bounds, convert the
corners, save, scale by `tile_width / 256`, place the PNG source at
`(int(1/zoom * coord_nw.x), int(1/zoom * coord_nw.y))`, paint, restore.
When `tile_width` is zero, `1 / zoom` raises `ZeroDivisionError` (after the
`save` and the degenerate `scale`). -/
def tileLayerDraw (r : Renderer) (t : TileInst) : PyResult :=
  let nw := tileNW r t
  let z := tileZoom r t
  if z = 0 then
    ⟨[CanvasOp.save, CanvasOp.scale (z, z)], some PyErr.zeroDivisionError⟩
  else
    ⟨[CanvasOp.save, CanvasOp.scale (z, z),
      CanvasOp.setSourceSurface t.filename
        (((pyInt ((1 / z) * nw.1) : ℤ) : ℚ), ((pyInt ((1 / z) * nw.2) : ℤ) : ℚ)),
      CanvasOp.paint, CanvasOp.restore], none⟩

/-- `CustomMapLayer.__init__` (lines 211–228): the tile loader exists only
when the style has a `map_tiles` block whose `indexing` is one of the three
supported conventions. -/
def tileloaderPresent (s : Style) : Bool :=
  match s.map_tiles with
  | some ix => ix = "google" ∨ ix = "tms" ∨ ix = "f"
  | none => false

/-- `CustomMapLayer.draw` together with `_get_tiles` (lines 230–242): when
a tile loader exists, the downloader (external) yields cached filenames;
`_get_tiles` constructs a `TileLayer` for EVERY filename first (parsing each
name — a `ValueError` there aborts the layer), then `draw` runs the tiles in
order.  Without a loader the layer draws nothing. -/
def customMapLayerDraw (r : Renderer) (tileFiles : List String) : PyResult :=
  if tileloaderPresent r.style then
    match tileFiles.mapM
        (fun f => (tileAddrOfFilename f).map
          (fun a => TileInst.mk f a.1 a.2.1 a.2.2)) with
    | Except.error e => ⟨[], some e⟩
    | Except.ok tiles =>
        tiles.foldl (fun acc t => acc.andThen (tileLayerDraw r t)) ⟨[], none⟩
  else ⟨[], none⟩

/-!  ## The compositor (`MapnikRenderer.render`, lines 297–385) -/

def copyrightText : String := "© OpenStreetMap contributors, CC-BY-SA"

def tileCacheDir : String := "/tmp/tilecache"

/-- The compositor's layer list, tagged by variant. -/
inductive LayerInst : Type
  | mapnikL
  | customMapL (cacheDir : String)
  | areaL (areas : List Area)
  | copyrightL (text : String)
  | qrL (file : String)
deriving DecidableEq, Repr

/-- Python truthiness of the optional `--qrcode` argument (a string or
`None`): `None` and the empty string are falsy. -/
def pyTruthyOptStr : Option String → Bool
  | none => false
  | some s => ¬ (s = "")

/-- `MapnikRenderer.render`, the layer-assembly block (lines 370–378):
the four fixed layers, then — when a QR source was supplied and the style
has not disabled it — the line `layers.append(QRCodeLayer(qrcode))`.
`QRCodeLayer.__init__(self, renderer, qrcode_file)` requires two arguments;
this call passes one, so Python raises `TypeError` at the construction,
before the draw loop starts. -/
def buildLayers (areas : List Area) (qrcode : Option String) (s : Style)
    : Except PyErr (List LayerInst) :=
  let layers := [LayerInst.mapnikL, LayerInst.customMapL tileCacheDir,
                 LayerInst.areaL areas, LayerInst.copyrightL copyrightText]
  if pyTruthyOptStr qrcode ∧ s.qrcode.getD true then
    Except.error PyErr.typeError
  else
    Except.ok layers

/-- Dispatch of the draw loop body `layer.draw()`. -/
def drawLayer (r : Renderer) (tileFiles : List String) : LayerInst → PyResult
  | LayerInst.mapnikL => mapnikLayerDraw
  | LayerInst.customMapL _ => customMapLayerDraw r tileFiles
  | LayerInst.areaL areas => areaLayerDraw r areas
  | LayerInst.copyrightL text => copyrightLayerDraw r text
  | LayerInst.qrL file => qrCodeLayerDraw r file

/-- The draw loop `for layer in layers: layer.draw()` (lines 381–382): the
layers run strictly in list order; an exception stops the loop. -/
def drawLayers (r : Renderer) (tileFiles : List String) (layers : List LayerInst)
    : PyResult :=
  layers.foldl (fun acc l => acc.andThen (drawLayer r tileFiles l)) ⟨[], none⟩

/-!  ## Structural lemmas about the embedding -/

/-- The pop-from-the-end loop emits the coordinates in reverse order. -/
theorem lineToLoop_eq (l : List Pt) : lineToLoop l = l.reverse.map CanvasOp.lineTo := by
  induction l using List.reverseRecOn with
  | nil => simp [lineToLoop]
  | append_singleton l a ih =>
      rw [lineToLoop]
      split
      · next heq =>
          rw [List.getLast?_concat] at heq
          exact absurd heq (by simp)
      · next c heq =>
          rw [List.getLast?_concat] at heq
          injection heq with h2
          subst h2
          rw [List.dropLast_concat, ih]
          simp

/-!  ## Concrete fixtures

A style in `px` units (so `get_px` is the identity on values) and a renderer
whose external transforms are the identity, so conversions can be followed
by hand: `convertPoint (lat, lng) = (lng, lat)`.  The tile-bounds
collaborator sends every address to the box `(0, 0, 1, 512)`, giving the
converted corners `nw = (0, 1)` and `se = (512, 0)` and so a view-space tile
width of `512`. -/

def sPx : Style :=
  { unit := some "px", zoom := 1/2, paper_size := [100, 50],
    map_size := [600, 400], margin := [0, 0],
    area_border_color := [1, 0, 0, 1], area_border_width := 2,
    orientation := none, copyright_margin := none, qrcode_margin := none,
    qrcode := none, map_tiles := none, format := none }

def rId : Renderer :=
  { style := sPx, projForward := fun p => p, viewForward := fun p => p,
    tileLatLonBounds := fun _ _ _ => ⟨0, 0, 1, 512⟩,
    mapSize := (600, 400), pngDims := fun _ => (256, 256) }

def tTile : TileInst := ⟨"3_2_1.png", 3, 2, 1⟩

/-- A style that disables the QR stamp. -/
def sQrOff : Style := { sPx with qrcode := some false }

def demoArea : Area := [(0, 1), (2, 3)]

/-- The fixed four-layer list the compositor builds when no QR is present. -/
def baseLayerList (areas : List Area) : List LayerInst :=
  [LayerInst.mapnikL, LayerInst.customMapL tileCacheDir,
   LayerInst.areaL areas, LayerInst.copyrightL copyrightText]

/-- C2: For every AreaPath with fewer than 2 points (0 or 1 points), the
AreaOverlay draw operation skips the path with no error and the render
completes normally.  The code's guard `if len(coords) < 2: pass` has an
empty body, so an empty path reaches `coords.pop()` and raises
`IndexError`: the area layer terminates with the exception (before its
`restore`), and the draw loop — hence the render — aborts. -/
theorem areaLayer_empty_path_raises :
    areaLayerDraw rId [[]] =
      ⟨[CanvasOp.save, CanvasOp.scale (1/2, 1/2)], some PyErr.indexError⟩
    ∧ (drawLayers rId [] (baseLayerList [[]])).err = some PyErr.indexError := by
  constructor
  · norm_num [areaLayerDraw, areasFold, areaTail, drawArea, pyPop, rId, sPx,
      Renderer.zoom, Renderer.convertPoint, PyResult.andThen, colorAt]
  · norm_num [drawLayers, drawLayer, baseLayerList, mapnikLayerDraw,
      customMapLayerDraw, tileloaderPresent, areaLayerDraw, areasFold, areaTail,
      drawArea, pyPop, copyrightLayerDraw, getPxList, Style.to_px, Style.getUnit,
      rId, sPx, Renderer.zoom, Renderer.convertPoint, PyResult.andThen, colorAt]

/-- C4 counterexample: the claim says a tile filename that fails to parse
into three integer components yields `(0,0,0)` without raising.  The name
`a_b_c.png` splits into exactly three components, none an integer literal:
`int('a')` raises `ValueError` instead of yielding `(0,0,0)`. -/
theorem tileAddr_parse_cex :
    tileAddrOfFilename "a_b_c.png" = Except.error PyErr.valueError
    ∧ ¬ tileAddrOfFilename "a_b_c.png" = Except.ok (0, 0, 0) := by
  constructor
  · decide
  · decide

/-- C6: the QR layer is claimed to be included (and painted) exactly when a
QR source is supplied and the style has not disabled it.  The inclusion
branch executes `layers.append(QRCodeLayer(qrcode))`, which passes one
argument to the two-argument `QRCodeLayer.__init__(self, renderer,
qrcode_file)`: Python raises `TypeError`, so a render with a QR source and
an enabled style aborts before drawing anything.  Without a QR source, or
with `qrcode: false` in the style, the four fixed layers are built
normally and no QR layer appears. -/
theorem qrcode_inclusion_eval :
    buildLayers [] (some "code.png") sPx = Except.error PyErr.typeError
    ∧ buildLayers [] none sPx = Except.ok (baseLayerList [])
    ∧ buildLayers [] (some "code.png") sQrOff = Except.ok (baseLayerList []) := by
  refine ⟨?_, ?_, ?_⟩ <;> decide

/-- C8: with no QR source the compositor builds exactly the four fixed
layers in order BaseMap, TileOverlay, AreaOverlay, CopyrightNotice and the
draw loop emits their canvas calls in exactly that order; with a QR source
supplied (and not disabled) the layer assembly itself raises `TypeError`,
so the claimed five-layer order never materialises. -/
theorem layer_order_eval :
    buildLayers [demoArea] none sPx = Except.ok (baseLayerList [demoArea])
    ∧ drawLayers rId [] (baseLayerList [demoArea]) =
        ⟨[CanvasOp.mapnikRender,
          CanvasOp.save, CanvasOp.scale (1/2, 1/2),
          CanvasOp.moveTo (3, 2), CanvasOp.lineTo (1, 0), CanvasOp.closePath,
          CanvasOp.setSourceRGBA 1 0 0 1, CanvasOp.setLineWidth 2,
          CanvasOp.stroke, CanvasOp.restore,
          CanvasOp.save, CanvasOp.scale (1, 1),
          CanvasOp.selectFontFace "Sans", CanvasOp.setFontSize 6,
          CanvasOp.moveTo (3, 397), CanvasOp.showText copyrightText,
          CanvasOp.restore], none⟩
    ∧ buildLayers [demoArea] (some "qr.png") sPx = Except.error PyErr.typeError := by
  refine ⟨?_, ?_, ?_⟩
  · decide
  · norm_num [drawLayers, drawLayer, baseLayerList, mapnikLayerDraw,
      customMapLayerDraw, tileloaderPresent, areaLayerDraw, areasFold, areaTail,
      drawArea, pyPop, copyrightLayerDraw, getPxList, Style.to_px, Style.getUnit,
      demoArea, rId, sPx, Renderer.zoom, Renderer.convertPoint, googleToMapnikCoord,
      PyResult.andThen, colorAt, lineToLoop_eq]
  · decide

/-- C9 counterexample: the claim says a cm value is converted at exactly
`72 / 2.54` pixels per cm.  The code truncates with `int()`: 1 cm becomes
28 px, not `72 / 2.54 = 28.34…` px. -/
theorem to_px_truncation_cex :
    Style.to_px { sPx with unit := some "cm" } 1 = some 28
    ∧ ¬ ((28 : ℚ) = 1 * (72 / (254 / 100))) := by
  constructor
  · norm_num [Style.to_px, Style.getUnit, sPx, cmToPx, pyInt]
    decide
  · norm_num

/-- C1 counterexample: every overlay drawing from `toView` output is
claimed to scale by the style's zoom factor.  With style zoom `1/2` and a
tile whose converted corners are `(0, 1)` and `(512, 0)`, the tile layer's
only scale operation is `scale(2, 2)` — the per-tile factor
`tile_width/256 = 512/256`, not the style zoom. -/
theorem tileLayer_not_zoom_compensated_cex :
    (tileLayerDraw rId tTile).ops =
      [CanvasOp.save, CanvasOp.scale (2, 2),
       CanvasOp.setSourceSurface "3_2_1.png" (0, 0),
       CanvasOp.paint, CanvasOp.restore]
    ∧ Renderer.zoom rId = 1/2
    ∧ ¬ ((2 : ℚ) = Renderer.zoom rId) := by
  refine ⟨?_, ?_, ?_⟩ <;>
    norm_num [tileLayerDraw, tileZoom, tileWidth, tileNW, tileSE, tTile, rId, sPx,
      Renderer.zoom, Renderer.convertPoint, googleToMapnikCoord, pyInt]

/-!  ## The spec's intended device mapping (for claim comparison) -/

/-- Modelled from the spec: `toDevice(view, zoomCompensation)` "multiplies
both axes by `zoomCompensation` then adds the page margin offset" (§4.1).
This follows the spec's words, not the code; it exists to state what the
claims say the tile layer should do, for comparison with the embedded
code's behaviour. -/
def toDeviceSpec (margin : Pt) (zoomComp : ℚ) (view : Pt) : Pt :=
  (zoomComp * view.1 + margin.1, zoomComp * view.2 + margin.2)

/-- The claim's per-tile scale factor: the device-space width of the tile's
footprint (both corners pushed through the spec's `toDevice` with the
style's zoom compensation) divided by the native tile raster width 256. -/
def tileScaleSpec (margin : Pt) (r : Renderer) (t : TileInst) : ℚ :=
  ((toDeviceSpec margin (Renderer.zoom r) (tileSE r t)).1
    - (toDeviceSpec margin (Renderer.zoom r) (tileNW r t)).1) / 256

/-- C5 counterexample: with style zoom `1/2`, margin `(0,0)` and converted
tile corners `(0,1)`/`(512,0)`, the device-space footprint width is
`1/2 * 512 = 256`, so the claimed per-tile scale factor is `1`; the code
paints the raster at scale `2` (= view-space width `512 / 256`). -/
theorem tileLayer_scale_cex :
    (runOps (initCtx (0, 0)) (tileLayerDraw rId tTile).ops).dev
      = [DevCmd.image "3_2_1.png" (0, 0) (2, 2)]
    ∧ tileScaleSpec (0, 0) rId tTile = 1
    ∧ ¬ ((2 : ℚ) = 1) := by
  refine ⟨?_, ?_, ?_⟩
  · norm_num [tileLayerDraw, tileZoom, tileWidth, tileNW, tileSE, tTile, rId, sPx,
      Renderer.convertPoint, googleToMapnikCoord, pyInt, runOps, stepOp, initCtx,
      AffineMat.apply, AffineMat.scaleBy]
  · norm_num [tileScaleSpec, toDeviceSpec, tileNW, tileSE, tTile, rId, sPx,
      Renderer.zoom, Renderer.convertPoint, googleToMapnikCoord]
  · norm_num

/-- C3 counterexample: for the 3-point path `[(0,1),(2,3),(4,5)]` (lat/lng
pairs; the identity-transform renderer converts them to `(1,0)`, `(3,2)`,
`(5,4)`), the claim predicts `move_to` at the FIRST converted point `(1,0)`
followed by the remaining points in order.  The code pops from the END:
it moves to `(5,4)` and emits the rest reversed. -/
theorem drawArea_order_cex :
    drawArea rId [(0, 1), (2, 3), (4, 5)] =
      ⟨[CanvasOp.moveTo (5, 4), CanvasOp.lineTo (3, 2), CanvasOp.lineTo (1, 0),
        CanvasOp.closePath], none⟩
    ∧ ¬ (drawArea rId [(0, 1), (2, 3), (4, 5)] =
      ⟨[CanvasOp.moveTo (1, 0), CanvasOp.lineTo (3, 2), CanvasOp.lineTo (5, 4),
        CanvasOp.closePath], none⟩) := by
  constructor
  · norm_num [drawArea, pyPop, rId, sPx, Renderer.convertPoint,
      googleToMapnikCoord, lineToLoop_eq]
  · norm_num [drawArea, pyPop, rId, sPx, Renderer.convertPoint,
      googleToMapnikCoord, lineToLoop_eq]

/-- C7 counterexample: the base-map layer's `draw` is
`mapnik2.render(self.m, self.ctx)` and nothing else — it performs no save
on entry and no restore on exit, against the claim that every layer's draw
does both. -/
theorem mapnikLayer_no_save_cex :
    (drawLayer rId [] LayerInst.mapnikL).ops = [CanvasOp.mapnikRender]
    ∧ CanvasOp.save ∉ [CanvasOp.mapnikRender]
    ∧ CanvasOp.restore ∉ [CanvasOp.mapnikRender] := by
  refine ⟨rfl, ?_, ?_⟩ <;> decide

/-- Errors out of `digitsVal` are always `ValueError`. -/
theorem digitsVal_error (cs : List Char) (e : PyErr)
    (h : digitsVal cs = Except.error e) : e = PyErr.valueError := by
  unfold digitsVal at h
  split at h
  · exact absurd h (by simp)
  · injection h with h2
    exact h2.symm

/-- A mapped `Except` fails exactly when its argument fails. -/
theorem except_map_error {α β : Type} (f : α → β) (x : Except PyErr α) (e : PyErr)
    (h : Except.map f x = Except.error e) : x = Except.error e := by
  cases x with
  | error u => simpa [Except.map] using h
  | ok v => simp [Except.map] at h

/-- `Except` bind on a failure short-circuits. -/
theorem except_bind_error {α β : Type} (e : PyErr) (k : α → Except PyErr β) :
    (Except.error e >>= k) = Except.error e := rfl

/-- `Except` bind on a success continues. -/
theorem except_bind_ok {α β : Type} (a : α) (k : α → Except PyErr β) :
    (Except.ok a >>= k) = k a := rfl

/-- Unfolding of the address parse when the name has exactly three
components. -/
theorem tileAddrOfFilename_three (f : String) (a b c : List Char)
    (h : tileNameParts f = [a, b, c]) :
    tileAddrOfFilename f =
      (pyIntOfString a >>= fun tx =>
        pyIntOfString b >>= fun ty =>
          pyIntOfString c >>= fun tz => Except.ok (tx, ty, tz)) := by
  rw [tileAddrOfFilename, h]

/-- Errors out of Python `int(<string>)` are always `ValueError`. -/
theorem pyIntOfString_error (cs : List Char) (e : PyErr)
    (h : pyIntOfString cs = Except.error e) : e = PyErr.valueError := by
  unfold pyIntOfString at h
  split at h
  · exact digitsVal_error _ _ (except_map_error _ _ _ h)
  · exact digitsVal_error _ _ h
  · exact digitsVal_error _ _ h

/-- C4 amended: a basename that does not split into exactly three
underscore-separated components yields the degenerate address `(0,0,0)`
without raising; a parse failure is possible only in the three-component
case and is always a `ValueError` (from `int()` on a non-numeric
component). -/
theorem tileAddr_parse_amended : ∀ f : String,
    ((tileNameParts f).length ≠ 3 → tileAddrOfFilename f = Except.ok (0, 0, 0))
    ∧ (∀ (a b c : List Char) (tx ty tz : ℤ), tileNameParts f = [a, b, c] →
        pyIntOfString a = Except.ok tx → pyIntOfString b = Except.ok ty →
        pyIntOfString c = Except.ok tz →
        tileAddrOfFilename f = Except.ok (tx, ty, tz))
    ∧ (∀ e, tileAddrOfFilename f = Except.error e →
        e = PyErr.valueError ∧ (tileNameParts f).length = 3) := by
  intro f
  refine ⟨?_, ?_, ?_⟩
  · intro hlen
    rcases h : tileNameParts f with _ | ⟨a, _ | ⟨b, _ | ⟨c, _ | ⟨d, t⟩⟩⟩⟩
    · simp [tileAddrOfFilename, h]
    · simp [tileAddrOfFilename, h]
    · simp [tileAddrOfFilename, h]
    · rw [h] at hlen
      exact absurd rfl hlen
    · simp [tileAddrOfFilename, h]
  · intro a b c tx ty tz h ha hb hc
    rw [tileAddrOfFilename_three f a b c h, ha, except_bind_ok, hb, except_bind_ok,
      hc, except_bind_ok]
  · intro e he
    rcases h : tileNameParts f with _ | ⟨a, _ | ⟨b, _ | ⟨c, _ | ⟨d, t⟩⟩⟩⟩
    · simp [tileAddrOfFilename, h] at he
    · simp [tileAddrOfFilename, h] at he
    · simp [tileAddrOfFilename, h] at he
    · refine ⟨?_, rfl⟩
      rw [tileAddrOfFilename_three f a b c h] at he
      rcases h1 : pyIntOfString a with e1 | v1
      · rw [h1, except_bind_error] at he
        injection he with he1
        exact he1 ▸ pyIntOfString_error _ _ h1
      · rw [h1, except_bind_ok] at he
        rcases h2 : pyIntOfString b with e2 | v2
        · rw [h2, except_bind_error] at he
          injection he with he2
          exact he2 ▸ pyIntOfString_error _ _ h2
        · rw [h2, except_bind_ok] at he
          rcases h3 : pyIntOfString c with e3 | v3
          · rw [h3, except_bind_error] at he
            injection he with he3
            exact he3 ▸ pyIntOfString_error _ _ h3
          · rw [h3, except_bind_ok] at he
            simp at he
    · simp [tileAddrOfFilename, h] at he

/-- Witness for the C4 amended theorem at concrete filenames: a
one-component name parses to `(0,0,0)`; a cached path whose basename has
three integer components parses to that address; and the only failure mode
is `ValueError` in the three-component case, exercised at `a_b_c.png`. -/
theorem tileAddr_parse_amended_witness :
    (tileNameParts "plain.png").length ≠ 3
    ∧ tileAddrOfFilename "plain.png" = Except.ok (0, 0, 0)
    ∧ tileAddrOfFilename "/tmp/tilecache/3_2_1.png" = Except.ok (3, 2, 1)
    ∧ (PyErr.valueError = PyErr.valueError
        ∧ (tileNameParts "a_b_c.png").length = 3) := by
  refine ⟨by decide, (tileAddr_parse_amended "plain.png").1 (by decide), ?_, ?_⟩
  · exact (tileAddr_parse_amended "/tmp/tilecache/3_2_1.png").2.1
      ['3'] ['2'] ['1'] 3 2 1 (by decide) (by decide) (by decide) (by decide)
  · exact (tileAddr_parse_amended "a_b_c.png").2.2 PyErr.valueError (by decide)

/-- C3 amended: for a path with at least two points the code builds the
closed polygon starting from the LAST converted point, emits the remaining
converted points as line segments in REVERSE input order, and explicitly
closes the path. -/
theorem drawArea_amended : ∀ (r : Renderer) (a : Area), 2 ≤ a.length →
    drawArea r a =
      ⟨CanvasOp.moveTo (Renderer.convertPoint r (a.getLastD (0, 0)))
        :: (a.dropLast.reverse.map (fun p => CanvasOp.lineTo (Renderer.convertPoint r p))
            ++ [CanvasOp.closePath]), none⟩ := by
  intro r a h
  rcases List.eq_nil_or_concat a with rfl | ⟨l, x, rfl⟩
  · simp at h
  · simp [drawArea, pyPop, List.map_append, List.getLast?_concat,
      List.dropLast_concat, List.getLastD_concat, lineToLoop_eq,
      List.map_reverse, List.map_map, Function.comp]

/-- Witness for the C3 amended theorem at the 3-point path used throughout. -/
theorem drawArea_amended_witness :
    2 ≤ ([(0, 1), (2, 3), (4, 5)] : Area).length
    ∧ drawArea rId [(0, 1), (2, 3), (4, 5)] =
      ⟨CanvasOp.moveTo
          (Renderer.convertPoint rId (([(0, 1), (2, 3), (4, 5)] : Area).getLastD (0, 0)))
        :: (([(0, 1), (2, 3), (4, 5)] : Area).dropLast.reverse.map
              (fun p => CanvasOp.lineTo (Renderer.convertPoint rId p))
            ++ [CanvasOp.closePath]), none⟩ := by
  exact ⟨by norm_num, drawArea_amended rId _ (by norm_num)⟩

/-- C1 amended: the area overlay's first canvas calls are `save` then
`scale(zoom, zoom)` with the STYLE's zoom factor, so its `toView` output is
zoom-compensated; the tile overlay's first calls are `save` then
`scale(z, z)` with its PER-TILE factor `z = tile_width / 256` (a view-space
quantity) — the style zoom never enters its drawing. -/
theorem overlay_scale_ops_amended : ∀ (r : Renderer) (areas : List Area) (t : TileInst),
    (areaLayerDraw r areas).ops.take 2
      = [CanvasOp.save, CanvasOp.scale (Renderer.zoom r, Renderer.zoom r)]
    ∧ (tileLayerDraw r t).ops.take 2
      = [CanvasOp.save, CanvasOp.scale (tileZoom r t, tileZoom r t)] := by
  intro r areas t
  constructor
  · rfl
  · by_cases h : tileZoom r t = 0
    · simp [tileLayerDraw, h, List.take]
    · simp [tileLayerDraw, h, List.take]

/-- C5 amended: the painted device image of a (non-degenerate) tile uses
scale `z = tile_width / 256` where `tile_width` is the VIEW-space footprint
width, and is positioned at the margin-translated point
`z * int(coord_nw / z)` — approximately the view-space northwest corner,
with no zoom compensation. -/
theorem tileLayer_paint_amended : ∀ (r : Renderer) (t : TileInst) (margin : Pt),
    tileZoom r t ≠ 0 →
    (runOps (initCtx margin) (tileLayerDraw r t).ops).dev
      = [DevCmd.image t.filename
          (tileZoom r t * ((pyInt ((1 / tileZoom r t) * (tileNW r t).1) : ℤ) : ℚ) + margin.1,
           tileZoom r t * ((pyInt ((1 / tileZoom r t) * (tileNW r t).2) : ℤ) : ℚ) + margin.2)
          (tileZoom r t, tileZoom r t)] := by
  intro r t margin h
  simp [tileLayerDraw, h, runOps, stepOp, initCtx, AffineMat.apply, AffineMat.scaleBy]

/-- Witness for the C5 amended theorem with the concrete tile and a nonzero
margin. -/
theorem tileLayer_paint_amended_witness :
    tileZoom rId tTile ≠ 0
    ∧ (runOps (initCtx (17, 5)) (tileLayerDraw rId tTile).ops).dev
      = [DevCmd.image "3_2_1.png" (17, 5) (2, 2)] := by
  have hz : tileZoom rId tTile = 2 := by
    norm_num [tileZoom, tileWidth, tileNW, tileSE, tTile, rId, sPx,
      Renderer.convertPoint, googleToMapnikCoord]
  constructor
  · rw [hz]; norm_num
  · rw [tileLayer_paint_amended rId tTile (17, 5) (by rw [hz]; norm_num)]
    have hnw : tileNW rId tTile = (0, 1) := by
      norm_num [tileNW, tTile, rId, sPx, Renderer.convertPoint, googleToMapnikCoord]
    rw [hz, hnw]
    norm_num [pyInt, tTile]

/-- C9 amended: the unit tag governs `to_px` exactly as claimed for `px`
(unchanged) and at the rates 72, 72/2.54 and 72/25.4 px per unit for `in`,
`cm` and `mm` — except that the three non-`px` conversions truncate the
result to an integer with `int()`. -/
theorem to_px_amended : ∀ (s : Style) (v : ℚ),
    (Style.getUnit s = "px" → Style.to_px s v = some v)
    ∧ (Style.getUnit s = "in" → Style.to_px s v = some ((pyInt (v * 72) : ℤ) : ℚ))
    ∧ (Style.getUnit s = "cm" →
        Style.to_px s v = some ((pyInt (v * 72 / (254 / 100)) : ℤ) : ℚ))
    ∧ (Style.getUnit s = "mm" →
        Style.to_px s v = some ((pyInt (v * 72 / (254 / 10)) : ℤ) : ℚ)) := by
  intro s v
  refine ⟨fun h => ?_, fun h => ?_, fun h => ?_, fun h => ?_⟩ <;>
    simp [Style.to_px, h, cmToPx, mmToPx, inchToPx]

def sIn : Style := { sPx with unit := some "in" }

def sCm : Style := { sPx with unit := some "cm" }

def sMm : Style := { sPx with unit := some "mm" }

/-- Witness for the C9 amended theorem at `v = 5` in each unit. -/
theorem to_px_amended_witness :
    Style.getUnit sPx = "px" ∧ Style.to_px sPx 5 = some 5
    ∧ Style.getUnit sIn = "in" ∧ Style.to_px sIn 5 = some 360
    ∧ Style.getUnit sCm = "cm" ∧ Style.to_px sCm 5 = some 141
    ∧ Style.getUnit sMm = "mm" ∧ Style.to_px sMm 5 = some 14 := by
  refine ⟨rfl, (to_px_amended sPx 5).1 rfl, rfl, ?_, rfl, ?_, rfl, ?_⟩
  · rw [(to_px_amended sIn 5).2.1 rfl]; norm_num [pyInt]
  · rw [(to_px_amended sCm 5).2.2.1 rfl]; norm_num [pyInt]
  · rw [(to_px_amended sMm 5).2.2.2 rfl]; norm_num [pyInt]

/-- C10: with `orientation = 'auto'` and a projected box taller than wide
(`width/height < 1`), `_get_sizes` swaps width and height of both the
paper size and the map size (list reversal of the two-element sizes);
otherwise both sizes pass through unchanged (px-converted either way). -/
theorem getSizes_orientation_swap : ∀ (s : Style) (mb : MercBox) (pw ph mw mh : ℚ),
    s.paper_size = [pw, ph] → s.map_size = [mw, mh] →
    ((s.orientation = some "auto" ∧ mb.width / mb.height < 1) →
      getSizes s mb = ([s.to_px ph, s.to_px pw], [s.to_px mh, s.to_px mw]))
    ∧ (¬ (s.orientation = some "auto" ∧ mb.width / mb.height < 1) →
      getSizes s mb = ([s.to_px pw, s.to_px ph], [s.to_px mw, s.to_px mh])) := by
  intro s mb pw ph mw mh hp hm
  constructor
  · intro hc
    simp only [getSizes]
    rw [if_pos hc]
    simp [getPxList, hp, hm]
  · intro hc
    simp only [getSizes]
    rw [if_neg hc]
    simp [getPxList, hp, hm]

def sAuto : Style := { sPx with orientation := some "auto" }

/-- Witness for the C10 theorem: a taller-than-wide projected box with the
auto style swaps both sizes; a wider-than-tall box leaves them unchanged. -/
theorem getSizes_orientation_swap_witness :
    (sAuto.orientation = some "auto" ∧ (⟨1, 2⟩ : MercBox).width / (⟨1, 2⟩ : MercBox).height < 1)
    ∧ getSizes sAuto ⟨1, 2⟩ = ([some 50, some 100], [some 400, some 600])
    ∧ ¬ (sPx.orientation = some "auto" ∧ (⟨2, 1⟩ : MercBox).width / (⟨2, 1⟩ : MercBox).height < 1)
    ∧ getSizes sPx ⟨2, 1⟩ = ([some 100, some 50], [some 600, some 400]) := by
  have hc : sAuto.orientation = some "auto" ∧ (⟨1, 2⟩ : MercBox).width / (⟨1, 2⟩ : MercBox).height < 1 :=
    ⟨rfl, by norm_num⟩
  have hnc : ¬ (sPx.orientation = some "auto" ∧ (⟨2, 1⟩ : MercBox).width / (⟨2, 1⟩ : MercBox).height < 1) := by
    intro hx
    exact absurd hx.1 (by simp [sPx])
  refine ⟨hc, ?_, hnc, ?_⟩
  · rw [(getSizes_orientation_swap sAuto ⟨1, 2⟩ 100 50 600 400 rfl rfl).1 hc]
    norm_num [Style.to_px, Style.getUnit, sAuto, sPx]
  · rw [(getSizes_orientation_swap sPx ⟨2, 1⟩ 100 50 600 400 rfl rfl).2 hnc]
    norm_num [Style.to_px, Style.getUnit, sPx]

/-!  ## Graphics-state scoping (claim C7 machinery)

`preservesGState ops` says running `ops` leaves the context's transform
state — the current matrix and the save stack — exactly as it found them,
so nothing leaks into the next layer. -/

/-- Operations that neither push nor pop the save stack. -/
def stackNeutralB : CanvasOp → Bool
  | CanvasOp.save => false
  | CanvasOp.restore => false
  | _ => true

/-- Pure path-construction operations. -/
def pathOnlyB : CanvasOp → Bool
  | CanvasOp.moveTo _ => true
  | CanvasOp.lineTo _ => true
  | CanvasOp.closePath => true
  | _ => false

def preservesGState (ops : List CanvasOp) : Prop :=
  ∀ st : CairoState, (runOps st ops).ctm = st.ctm ∧ (runOps st ops).stack = st.stack

theorem runOps_append (st : CairoState) (a b : List CanvasOp) :
    runOps st (a ++ b) = runOps (runOps st a) b :=
  List.foldl_append _ _ _ _

theorem path_stackNeutral (op : CanvasOp) (h : pathOnlyB op) : stackNeutralB op := by
  cases op <;> simp [pathOnlyB, stackNeutralB] at h ⊢

theorem stepOp_stack_of_neutral (st : CairoState) (op : CanvasOp)
    (h : stackNeutralB op) : (stepOp st op).stack = st.stack := by
  cases op
  case save => exact absurd h (by simp [stackNeutralB])
  case restore => exact absurd h (by simp [stackNeutralB])
  case paint =>
    rcases hs : st.source with _ | src
    · simp [stepOp, hs]
    · cases src <;> simp [stepOp, hs]
  all_goals rfl

theorem runOps_stack_of_neutral : ∀ (ops : List CanvasOp) (st : CairoState),
    (∀ op ∈ ops, stackNeutralB op) → (runOps st ops).stack = st.stack := by
  intro ops
  induction ops with
  | nil => intro st _; rfl
  | cons op rest ih =>
      intro st h
      have hop := h op (List.mem_cons_self op rest)
      have hrest := fun o ho => h o (List.mem_cons_of_mem op ho)
      show (runOps (stepOp st op) rest).stack = st.stack
      rw [ih (stepOp st op) hrest, stepOp_stack_of_neutral st op hop]

/-- A `save`, any stack-neutral body, then a `restore` restores the
transform state exactly. -/
theorem runOps_save_mid_restore (st : CairoState) (mid : List CanvasOp)
    (h : ∀ op ∈ mid, stackNeutralB op) :
    (runOps st (CanvasOp.save :: mid ++ [CanvasOp.restore])).ctm = st.ctm
    ∧ (runOps st (CanvasOp.save :: mid ++ [CanvasOp.restore])).stack = st.stack := by
  have h1 : runOps st (CanvasOp.save :: mid ++ [CanvasOp.restore])
      = stepOp (runOps (stepOp st CanvasOp.save) mid) CanvasOp.restore := by
    show runOps (stepOp st CanvasOp.save) (mid ++ [CanvasOp.restore]) = _
    rw [runOps_append]
    rfl
  have h2 : (runOps (stepOp st CanvasOp.save) mid).stack = st.ctm :: st.stack := by
    rw [runOps_stack_of_neutral mid _ h]
    rfl
  rw [h1]
  set st1 := runOps (stepOp st CanvasOp.save) mid with hst1
  constructor
  · simp [stepOp, h2]
  · simp [stepOp, h2]

theorem preserves_of_sandwich (ops mid : List CanvasOp)
    (hshape : ops = CanvasOp.save :: mid ++ [CanvasOp.restore])
    (h : ∀ op ∈ mid, stackNeutralB op) : preservesGState ops := by
  intro st
  rw [hshape]
  exact runOps_save_mid_restore st mid h

theorem preserves_append (a b : List CanvasOp)
    (ha : preservesGState a) (hb : preservesGState b) : preservesGState (a ++ b) := by
  intro st
  rw [runOps_append]
  rcases ha st with ⟨h1, h2⟩
  rcases hb (runOps st a) with ⟨h3, h4⟩
  exact ⟨h3.trans h1, h4.trans h2⟩

theorem preserves_nil : preservesGState [] := fun _ => ⟨rfl, rfl⟩

theorem andThen_err_left_none (a b : PyResult) (h : a.err = none) :
    (PyResult.andThen a b).err = b.err := by
  simp [PyResult.andThen, h]

theorem andThen_err_none (a b : PyResult) (h : (PyResult.andThen a b).err = none) :
    a.err = none ∧ b.err = none := by
  rcases ha : a.err with _ | e
  · rw [PyResult.andThen] at h
    simp [ha] at h
    exact ⟨rfl, h⟩
  · simp [PyResult.andThen, ha] at h

theorem andThen_ops_of_err_none (a b : PyResult) (h : a.err = none) :
    (PyResult.andThen a b).ops = a.ops ++ b.ops := by
  simp [PyResult.andThen, h]

theorem mem_andThen_ops (a b : PyResult) (o : CanvasOp)
    (h : o ∈ (PyResult.andThen a b).ops) : o ∈ a.ops ∨ o ∈ b.ops := by
  rcases he : a.err with _ | e
  · rw [PyResult.andThen] at h
    simp [he] at h
    exact h
  · simp [PyResult.andThen, he] at h
    exact Or.inl h

theorem fold_err_persist {α : Type} (f : α → PyResult) :
    ∀ (l : List α) (acc : PyResult) (e : PyErr), acc.err = some e →
      l.foldl (fun x t => PyResult.andThen x (f t)) acc = acc := by
  intro l
  induction l with
  | nil => intro acc e _; rfl
  | cons t ts ih =>
      intro acc e h
      rw [List.foldl_cons]
      have hs : PyResult.andThen acc (f t) = acc := by
        simp [PyResult.andThen, h]
      rw [hs]
      exact ih acc e h

/-- The generic shape of the per-item draw loops: if every successful item
preserves the transform state, a successful loop does too. -/
theorem fold_preserves {α : Type} (f : α → PyResult)
    (hf : ∀ t, (f t).err = none → preservesGState (f t).ops) :
    ∀ (ts : List α) (acc : PyResult),
      (ts.foldl (fun a t => PyResult.andThen a (f t)) acc).err = none →
      preservesGState acc.ops →
      preservesGState ((ts.foldl (fun a t => PyResult.andThen a (f t)) acc)).ops := by
  intro ts
  induction ts with
  | nil => intro acc _ hacc; exact hacc
  | cons t ts ih =>
      intro acc h hacc
      rw [List.foldl_cons] at h ⊢
      have herr : (PyResult.andThen acc (f t)).err = none := by
        rcases ho : (PyResult.andThen acc (f t)).err with _ | e
        · rfl
        · rw [fold_err_persist f ts _ e ho, ho] at h
          exact absurd h (by simp)
      rcases andThen_err_none _ _ herr with ⟨ha, hb⟩
      have hp : preservesGState ((PyResult.andThen acc (f t)).ops) := by
        rw [andThen_ops_of_err_none _ _ ha]
        exact preserves_append _ _ hacc (hf t hb)
      exact ih (PyResult.andThen acc (f t)) h hp

/-- `_draw_area` emits path-construction calls only. -/
theorem drawArea_ops_path (r : Renderer) (a : Area) :
    ∀ op ∈ (drawArea r a).ops, pathOnlyB op := by
  intro op hop
  simp only [drawArea] at hop
  rcases hp : pyPop (a.map r.convertPoint) with e | ⟨start, rest⟩
  · simp [hp] at hop
  · simp only [hp, lineToLoop_eq] at hop
    rcases List.mem_cons.mp hop with rfl | hop2
    · rfl
    · rcases List.mem_append.mp hop2 with hma | hmb
      · rcases List.mem_map.mp hma with ⟨p, _, rfl⟩
        rfl
      · rcases List.mem_singleton.mp hmb with rfl
        rfl

/-- The area loop emits path-construction calls only. -/
theorem areasFold_ops_path (r : Renderer) : ∀ (areas : List Area) (acc : PyResult),
    (∀ op ∈ acc.ops, pathOnlyB op) →
    ∀ op ∈ (areas.foldl (fun x a => PyResult.andThen x (drawArea r a)) acc).ops,
      pathOnlyB op := by
  intro areas
  induction areas with
  | nil => intro acc hacc; exact hacc
  | cons a as ih =>
      intro acc hacc op hop
      rw [List.foldl_cons] at hop
      refine ih _ ?_ op hop
      intro o ho
      rcases mem_andThen_ops _ _ o ho with h1 | h2
      · exact hacc o h1
      · exact drawArea_ops_path r a o h2

/-- A successful `AreaLayer.draw` restores the transform state it saved. -/
theorem areaLayer_preserves : ∀ (r : Renderer) (areas : List Area),
    (areaLayerDraw r areas).err = none → preservesGState (areaLayerDraw r areas).ops := by
  intro r areas h
  have h0 : (areaLayerDraw r areas).err
      = (PyResult.andThen (areasFold r areas) (areaTail r)).err := by
    simp only [areaLayerDraw]
    exact andThen_err_left_none _ _ rfl
  rw [h0] at h
  rcases andThen_err_none _ _ h with ⟨hF, _⟩
  refine preserves_of_sandwich _
    (CanvasOp.scale (Renderer.zoom r, Renderer.zoom r)
      :: ((areasFold r areas).ops
        ++ [CanvasOp.setSourceRGBA (colorAt r.style 0) (colorAt r.style 1)
              (colorAt r.style 2) (colorAt r.style 3),
            CanvasOp.setLineWidth r.style.area_border_width, CanvasOp.stroke])) ?_ ?_
  · simp only [areaLayerDraw]
    rw [andThen_ops_of_err_none _ _ rfl, andThen_ops_of_err_none _ _ hF]
    simp [areaTail, Renderer.zoom]
  · intro op hop
    rcases List.mem_cons.mp hop with rfl | hop2
    · rfl
    · rcases List.mem_append.mp hop2 with hF2 | htail
      · exact path_stackNeutral op (areasFold_ops_path r areas ⟨[], none⟩ (by simp) op hF2)
      · fin_cases htail <;> rfl

/-- A successful `CopyrightLayer.draw` restores the transform state it
saved. -/
theorem copyrightLayer_preserves : ∀ (r : Renderer) (text : String),
    (copyrightLayerDraw r text).err = none →
    preservesGState (copyrightLayerDraw r text).ops := by
  intro r text h
  unfold copyrightLayerDraw at h ⊢
  rcases hx : (getPxList r.style (r.style.copyright_margin.getD [3, 3]))[0]?
      with _ | (_ | m0) <;>
    rcases hy : (getPxList r.style (r.style.copyright_margin.getD [3, 3]))[1]?
      with _ | (_ | m1) <;>
    simp [hx, hy] at h ⊢
  refine preserves_of_sandwich _
    [CanvasOp.scale (1, 1), CanvasOp.selectFontFace "Sans", CanvasOp.setFontSize 6,
     CanvasOp.moveTo (m0, r.mapSize.2 - m1), CanvasOp.showText text] rfl ?_
  intro op hop
  fin_cases hop <;> rfl

/-- A successful `QRCodeLayer.draw` restores the transform state it saved. -/
theorem qrCodeLayer_preserves : ∀ (r : Renderer) (f : String),
    (qrCodeLayerDraw r f).err = none → preservesGState (qrCodeLayerDraw r f).ops := by
  intro r f h
  unfold qrCodeLayerDraw at h ⊢
  rcases hx : (getPxList r.style (r.style.qrcode_margin.getD [0, 0]))[0]?
      with _ | (_ | m0) <;>
    rcases hy : (getPxList r.style (r.style.qrcode_margin.getD [0, 0]))[1]?
      with _ | (_ | m1) <;>
    simp [hx, hy] at h ⊢
  refine preserves_of_sandwich _
    [CanvasOp.scale (3 / 10, 3 / 10),
     CanvasOp.setSourceSurface f
       (((pyInt ((1 / (3 / 10)) * r.mapSize.1) : ℤ) : ℚ) - ((r.pngDims f).1 : ℚ) - m0,
        ((pyInt ((1 / (3 / 10)) * r.mapSize.2) : ℤ) : ℚ) - ((r.pngDims f).2 : ℚ) - m1),
     CanvasOp.paint] ?_ ?_
  · norm_num
  · intro op hop
    fin_cases hop <;> rfl

/-- A successful `TileLayer.draw` restores the transform state it saved. -/
theorem tileLayer_preserves : ∀ (r : Renderer) (t : TileInst),
    (tileLayerDraw r t).err = none → preservesGState (tileLayerDraw r t).ops := by
  intro r t h
  by_cases hz : tileZoom r t = 0
  · simp [tileLayerDraw, hz] at h
  · refine preserves_of_sandwich _
      [CanvasOp.scale (tileZoom r t, tileZoom r t),
       CanvasOp.setSourceSurface t.filename
         (((pyInt ((1 / tileZoom r t) * (tileNW r t).1) : ℤ) : ℚ),
          ((pyInt ((1 / tileZoom r t) * (tileNW r t).2) : ℤ) : ℚ)),
       CanvasOp.paint] ?_ ?_
    · simp [tileLayerDraw, hz]
    · intro op hop
      fin_cases hop <;> rfl

/-- A successful `CustomMapLayer.draw` leaves the transform state intact
(it is a sequence of tile draws, each individually scoped). -/
theorem customMapLayer_preserves : ∀ (r : Renderer) (tf : List String),
    (customMapLayerDraw r tf).err = none →
    preservesGState (customMapLayerDraw r tf).ops := by
  intro r tf h
  unfold customMapLayerDraw at h ⊢
  by_cases hl : tileloaderPresent r.style
  · simp only [hl, if_true] at h ⊢
    rcases hm : tf.mapM (fun f => (tileAddrOfFilename f).map
        (fun a => TileInst.mk f a.1 a.2.1 a.2.2)) with e | tiles
    · rw [hm] at h
      simp at h
    · rw [hm] at h ⊢
      exact fold_preserves (tileLayerDraw r) (tileLayer_preserves r) tiles ⟨[], none⟩ h
        preserves_nil
  · simp only [hl, if_false] at h ⊢
    exact preserves_nil

/-- C7 amended: the overlay and annotation layers (area, copyright, QR,
per-tile, tile-container) each leave the context's transform state exactly
as they found it WHEN their drawing completes without an exception — they
save on entry and restore on exit.  The base-map layer performs no
save/restore at all (its draw is the single external render call).  And a
draw terminated by an exception does NOT restore: the area layer run on a
degenerate path leaves its saved state on the stack. -/
theorem layer_state_scoping_amended :
    (∀ (r : Renderer) (areas : List Area),
      (areaLayerDraw r areas).err = none → preservesGState (areaLayerDraw r areas).ops)
    ∧ (∀ (r : Renderer) (text : String),
      (copyrightLayerDraw r text).err = none →
        preservesGState (copyrightLayerDraw r text).ops)
    ∧ (∀ (r : Renderer) (f : String),
      (qrCodeLayerDraw r f).err = none → preservesGState (qrCodeLayerDraw r f).ops)
    ∧ (∀ (r : Renderer) (t : TileInst),
      (tileLayerDraw r t).err = none → preservesGState (tileLayerDraw r t).ops)
    ∧ (∀ (r : Renderer) (tf : List String),
      (customMapLayerDraw r tf).err = none →
        preservesGState (customMapLayerDraw r tf).ops)
    ∧ mapnikLayerDraw.ops = [CanvasOp.mapnikRender]
    ∧ (runOps (initCtx (0, 0)) (areaLayerDraw rId [[]]).ops).stack ≠ [] := by
  refine ⟨areaLayer_preserves, copyrightLayer_preserves, qrCodeLayer_preserves,
    tileLayer_preserves, customMapLayer_preserves, rfl, ?_⟩
  norm_num [areaLayerDraw, areasFold, areaTail, drawArea, pyPop, rId, sPx,
    Renderer.zoom, Renderer.convertPoint, PyResult.andThen, runOps, stepOp,
    initCtx, colorAt]

/-- Witness for the C7 amended theorem: the copyright layer under the
concrete renderer draws without error and leaves the initial context's
matrix and stack untouched. -/
theorem layer_state_scoping_amended_witness :
    (copyrightLayerDraw rId "x").err = none
    ∧ (runOps (initCtx (0, 0)) (copyrightLayerDraw rId "x").ops).ctm
        = (initCtx (0, 0)).ctm
    ∧ (runOps (initCtx (0, 0)) (copyrightLayerDraw rId "x").ops).stack
        = (initCtx (0, 0)).stack := by
  have he : (copyrightLayerDraw rId "x").err = none := by
    norm_num [copyrightLayerDraw, getPxList, Style.to_px, Style.getUnit, rId, sPx]
  have h2 := (layer_state_scoping_amended.2.1 rId "x" he) (initCtx (0, 0))
  exact ⟨he, h2.1, h2.2⟩
